import Mathlib

set_option maxRecDepth 8192

/-!
Shallow embedding of `src/streamlit_rag_hist.py`, a Streamlit chat
front-end over the Gemini File Search API.

The pure core is `build_prompt` (lines 38-57 of the source).  The stateful
parts — the session-state dictionary, the upload handler with its
fixed-interval poll loop (lines 102-172), and the answer handler
(lines 180-225) — are embedded as functions over an explicit session-state
record together with an environment record that fixes the outcome of each
external SDK call (client construction, store creation, the temp-file
write, the upload/import request, and each status poll).  Exceptions
raised by the SDK are modelled with `Except`.
-/

/-- One question/answer pair of the conversation history.  In the source it
is the dict with keys `question` and `answer` appended at line 222. -/
structure Exchange where
  question : String
  answer : String
deriving DecidableEq, Repr

/-- Python `str.strip()`: remove leading and trailing whitespace.  Embedded
directly over the character list so that it evaluates by kernel reduction. -/
def pyStrip (s : String) : String :=
  ⟨((s.data.dropWhile Char.isWhitespace).reverse.dropWhile Char.isWhitespace).reverse⟩

/-- The loop of `build_prompt` (source lines 42-48): for each history item,
strip both fields and emit the two-line block `Q: ...` / `A: ...` unless both
stripped fields are empty (Python `if q or a`). -/
def prev_lines (history : List Exchange) : List String :=
  history.filterMap fun item =>
    let q := pyStrip item.question
    let a := pyStrip item.answer
    if q ≠ "" ∨ a ≠ "" then some ("Q: " ++ q ++ "\nA: " ++ a) else none

/-- The fixed instructional preamble of the prompt (source line 51). -/
def promptPreamble : String :=
  "There are 2 sections in this. Previously asked and currently asking. While answering you need to check the previously asked then answer the query that is present in the currently asking section.\n"

/-- `build_prompt` (source lines 38-57): preamble, the `PREVIOUSLY_ASKED:`
section holding the joined blocks, then `CURRENTLY_ASKING:` with the raw
current question. -/
def build_prompt (history : List Exchange) (current_question : String) : String :=
  let previously := String.intercalate "\n" (prev_lines history)
  promptPreamble ++ "PREVIOUSLY_ASKED:\n\n" ++ previously ++ "\n\nCURRENTLY_ASKING:\n" ++ current_question

/-- The block emitted for one history item that is not skipped:
`Q: <stripped question>` newline `A: <stripped answer>`. -/
def qaBlock (e : Exchange) : String :=
  "Q: " ++ pyStrip e.question ++ "\nA: " ++ pyStrip e.answer

/-- The per-browser session state (source lines 88-98): the GenAI client
handle, the File Search store name, the uploaded file name, the readiness
flag and the conversation history. -/
structure SessionState where
  client : Option Unit
  file_search_store_name : Option String
  uploaded_filename : Option String
  file_search_ready : Bool
  conversation_history : List Exchange
deriving DecidableEq, Repr

/-- The session state installed at session creation (source lines 88-98:
every key is initialised to None / False / the empty list). -/
def initState : SessionState :=
  { client := none
    file_search_store_name := none
    uploaded_filename := none
    file_search_ready := false
    conversation_history := [] }

/-- A long-running-operation handle: only its `done` status is observed
(the source reads it with getattr, defaulting to False). -/
structure Operation where
  done : Bool
deriving DecidableEq, Repr

/-- Poll interval of the import wait loop, `poll_seconds = 2` (line 148). -/
def poll_seconds : Nat := 2

/-- Total wait budget of the import wait loop, `max_wait = 300` (line 149). -/
def max_wait : Nat := 300

/-- The import poll loop (source lines 150-158):
`while not operation.done and waited < max_wait: sleep(poll_seconds);
waited += poll_seconds; try: operation = get(operation) except: break`.
`getOp` gives the outcome of the status check attempted after a total of
`w` time-units of waiting: a fresh operation handle, or `.error` when the
SDK call raises (in which case the loop breaks silently).  Returns the
final operation handle together with the total time waited. -/
def pollLoop (getOp : Nat → Except Unit Operation) (op : Operation) (waited : Nat) :
    Operation × Nat :=
  if op.done = false ∧ waited < max_wait then
    match getOp (waited + poll_seconds) with
    | .error _ => (op, waited + poll_seconds)
    | .ok op' => pollLoop getOp op' (waited + poll_seconds)
  else (op, waited)
termination_by max_wait - waited
decreasing_by simp only [poll_seconds]; omega

/-- Outcomes of the external SDK calls made by the upload handler, fixed up
front: whether the `google.genai` import succeeded (lines 25-30), and the
results of `genai.Client` (line 113), `file_search_stores.create`
(line 123), the temp-file write (lines 130-134),
`upload_to_file_search_store` (line 138) and each `operations.get` poll
(line 155).  `.error e` models the call raising an exception with detail
`e`. -/
structure UploadEnv where
  genaiAvailable : Bool
  createClient : Except String Unit
  createStore : Except String String
  writeTmp : Except String Unit
  upload : Except String Operation
  getOp : Nat → Except Unit Operation

/-- What the upload handler displays to the user: the precondition errors
(lines 104, 106, 110), the client-creation error (line 116), the
`st.exception` shown when the try block raises (line 172), the success
message (line 161) and the timeout warning (lines 166-168). -/
inductive UploadMsg where
  | errNoApiKey
  | errNoFile
  | errLibMissing
  | errClientCreate (e : String)
  | exceptionShown (e : String)
  | successReady
  | timeoutWarning
deriving DecidableEq, Repr

/-- The upload handler (source lines 102-172), as a function of the SDK
outcomes, the entered API key, the uploaded file name (None when no file
was chosen) and the current session state.  Returns the new session state
and the message displayed. -/
def uploadHandler (env : UploadEnv) (api_key : String) (uploaded_file : Option String)
    (s : SessionState) : SessionState × UploadMsg :=
  if api_key = "" then (s, .errNoApiKey)
  else
    match uploaded_file with
    | none => (s, .errNoFile)
    | some fname =>
      if env.genaiAvailable = false then (s, .errLibMissing)
      else
        match env.createClient with
        | .error e => (s, .errClientCreate e)
        | .ok _ =>
          let s1 := { s with client := some () }
          match env.createStore with
          | .error e => (s1, .exceptionShown e)
          | .ok storeName =>
            let s2 := { s1 with
              file_search_store_name := some storeName
              uploaded_filename := some fname }
            match env.writeTmp with
            | .error e => (s2, .exceptionShown e)
            | .ok _ =>
              match env.upload with
              | .error e => (s2, .exceptionShown e)
              | .ok op =>
                let res := pollLoop env.getOp op 0
                if res.1.done then
                  ({ s2 with file_search_ready := true, conversation_history := [] },
                    .successReady)
                else
                  ({ s2 with file_search_ready := true }, .timeoutWarning)

/-- An inference response; the handler probes the `text` attribute and then
the `output` attribute (source lines 210-213), each possibly absent. -/
structure GenResponse where
  text : Option String
  output : Option String
deriving DecidableEq, Repr

/-- What the answer handler displays: the precondition errors (lines 182,
184, 186), the `st.exception` on a raised inference call (line 225), the
raw-response dump when neither payload field is present (line 216), or the
answer (lines 218-219). -/
inductive AnswerMsg where
  | errMissingClient
  | errNoStore
  | errEmptyQuestion
  | exceptionShown (e : String)
  | rawResponseShown (r : GenResponse)
  | answerShown (t : String)
deriving DecidableEq, Repr

/-- The answer handler (source lines 180-225): precondition checks, then
`generate_content` on `build_prompt(history, question)` — its outcome is
the parameter `genResult` (`.error e` models a raised exception) — then
answer extraction with the text/output fallback, display, and the history
append (line 222) exactly when an answer is displayed. -/
def answerHandler (genResult : Except String GenResponse) (api_key question : String)
    (s : SessionState) : SessionState × AnswerMsg :=
  if api_key = "" ∨ s.client = none then (s, .errMissingClient)
  else if s.file_search_store_name = none then (s, .errNoStore)
  else if pyStrip question = "" then (s, .errEmptyQuestion)
  else
    match genResult with
    | .error e => (s, .exceptionShown e)
    | .ok response =>
      match response.text with
      | some t =>
        ({ s with conversation_history := s.conversation_history ++ [⟨question, t⟩] },
          .answerShown t)
      | none =>
        match response.output with
        | some t =>
          ({ s with conversation_history := s.conversation_history ++ [⟨question, t⟩] },
            .answerShown t)
        | none => (s, .rawResponseShown response)

/-- When no history item is skipped (each has a non-empty stripped field),
`prev_lines` is exactly the map of `qaBlock` over the history, in order. -/
theorem prev_lines_eq_map (H : List Exchange)
    (h : ∀ e ∈ H, pyStrip e.question ≠ "" ∨ pyStrip e.answer ≠ "") :
    prev_lines H = H.map qaBlock := by
  induction H with
  | nil => rfl
  | cons e t ih =>
    have he := h e (List.mem_cons_self e t)
    have ht : ∀ x ∈ t, pyStrip x.question ≠ "" ∨ pyStrip x.answer ≠ "" :=
      fun x hx => h x (List.mem_cons_of_mem e hx)
    simp only [prev_lines, List.filterMap_cons] at *
    rw [if_pos he]
    simp [qaBlock, ih ht]

/-- C1: `build_prompt` on the one-exchange history
`[{question: "What is X?", answer: "X is Y."}]` with question `"And Z?"`
yields exactly the fixed preamble, then `PREVIOUSLY_ASKED:` and a blank
line, the block `Q: What is X?` newline `A: X is Y.`, a blank line, then
`CURRENTLY_ASKING:` newline `And Z?`; and on the empty history with
`"First question"` it yields the same preamble, an empty previously-asked
body, then `CURRENTLY_ASKING:` newline `First question`. -/
theorem C1_build_prompt_examples :
    build_prompt [⟨"What is X?", "X is Y."⟩] "And Z?" =
      promptPreamble ++ "PREVIOUSLY_ASKED:\n\nQ: What is X?\nA: X is Y.\n\nCURRENTLY_ASKING:\nAnd Z?"
    ∧ build_prompt [] "First question" =
      promptPreamble ++ "PREVIOUSLY_ASKED:\n\n\n\nCURRENTLY_ASKING:\nFirst question" := by
  constructor <;> decide

/-- C9: `build_prompt` is a pure, deterministic, total Lean function of its
two inputs (it is a plain `def`, so determinism and absence of side
effects hold by construction): identical inputs give identical output, and
the empty history with the empty question is a legal input producing the
well-formed prompt with both section labels. -/
theorem C9_pure_total (H : List Exchange) (Q : String) :
    build_prompt H Q = build_prompt H Q
    ∧ build_prompt [] "" =
      promptPreamble ++ "PREVIOUSLY_ASKED:\n\n\n\nCURRENTLY_ASKING:\n" :=
  ⟨rfl, by decide⟩

/-- C8: for every history and question, the output of `build_prompt`
decomposes as some prefix, the literal `PREVIOUSLY_ASKED:`, some middle
part, then the literal `CURRENTLY_ASKING:` followed by a newline and the
raw question used as-is — so both labels occur, in that order. -/
theorem C8_labels_order (H : List Exchange) (Q : String) :
    ∃ pre mid, build_prompt H Q =
      pre ++ "PREVIOUSLY_ASKED:" ++ mid ++ ("CURRENTLY_ASKING:\n" ++ Q) := by
  refine ⟨promptPreamble, "\n\n" ++ String.intercalate "\n" (prev_lines H) ++ "\n\n", ?_⟩
  have h1 : "PREVIOUSLY_ASKED:\n\n" = "PREVIOUSLY_ASKED:" ++ "\n\n" := by decide
  have h2 : "\n\nCURRENTLY_ASKING:\n" = "\n\n" ++ "CURRENTLY_ASKING:\n" := by decide
  simp only [build_prompt, h1, h2, String.append_assoc]

/-- C6: when every exchange of the history has at least one non-empty
stripped field, the body of the `PREVIOUSLY_ASKED` section is exactly the
`Q:`/`A:` blocks of the history, oldest first, joined by a single newline
(`String.intercalate "\n"` over the mapped blocks). -/
theorem C6_previously_body (H : List Exchange) (Q : String)
    (h : ∀ e ∈ H, pyStrip e.question ≠ "" ∨ pyStrip e.answer ≠ "") :
    build_prompt H Q =
      promptPreamble ++ "PREVIOUSLY_ASKED:\n\n" ++
        String.intercalate "\n" (H.map qaBlock) ++ "\n\nCURRENTLY_ASKING:\n" ++ Q := by
  simp only [build_prompt, prev_lines_eq_map H h]

/-- Witness for C6 at the two-exchange history of the claim: the block of
the first exchange appears before the block of the second. -/
theorem C6_witness :
    build_prompt [⟨"q1", "a1"⟩, ⟨"q2", "a2"⟩] "next" =
      promptPreamble ++ "PREVIOUSLY_ASKED:\n\n" ++
        String.intercalate "\n" (([⟨"q1", "a1"⟩, ⟨"q2", "a2"⟩] : List Exchange).map qaBlock) ++
        "\n\nCURRENTLY_ASKING:\n" ++ "next" :=
  C6_previously_body [⟨"q1", "a1"⟩, ⟨"q2", "a2"⟩] "next" (by decide)

/-- C7: an exchange whose question and answer both strip to the empty
string contributes no block at all — deleting it from anywhere in the
history leaves the prompt unchanged — while an exchange with at least one
non-empty stripped field does contribute its block to the emitted lines. -/
theorem C7_skip_empty (H1 H2 : List Exchange) (e : Exchange) (Q : String) :
    (pyStrip e.question = "" ∧ pyStrip e.answer = "" →
      build_prompt (H1 ++ e :: H2) Q = build_prompt (H1 ++ H2) Q)
    ∧ ((pyStrip e.question ≠ "" ∨ pyStrip e.answer ≠ "") →
      qaBlock e ∈ prev_lines (H1 ++ e :: H2)) := by
  constructor
  · rintro ⟨hq, ha⟩
    have hpl : prev_lines (H1 ++ e :: H2) = prev_lines (H1 ++ H2) := by
      simp only [prev_lines, List.filterMap_append, List.filterMap_cons]
      rw [if_neg (by simp [hq, ha])]
    simp only [build_prompt, hpl]
  · intro h
    simp only [prev_lines, List.filterMap_append, List.filterMap_cons]
    rw [if_pos h]
    simp [qaBlock]

/-- Witness for C7: the whitespace-only exchange in the middle of a
history is skipped, and a half-empty exchange still contributes a block. -/
theorem C7_witness :
    build_prompt [⟨"q1", "a1"⟩, ⟨" ", " "⟩] "nq" = build_prompt [⟨"q1", "a1"⟩] "nq"
    ∧ qaBlock ⟨"q3", ""⟩ ∈ prev_lines [⟨"q3", ""⟩] :=
  ⟨(C7_skip_empty [⟨"q1", "a1"⟩] [] ⟨" ", " "⟩ "nq").1 (by decide),
    (C7_skip_empty [] [] ⟨"q3", ""⟩ "x").2 (by decide)⟩

/-- Invariant of the poll loop: starting from an even total wait within
budget, the final total wait is even (a multiple of the 2-unit interval)
and never exceeds the 300-unit budget. -/
theorem pollLoop_waited_spec (getOp : Nat → Except Unit Operation) (op : Operation)
    (waited : Nat) : waited % 2 = 0 → waited ≤ max_wait →
    (pollLoop getOp op waited).2 % 2 = 0 ∧ (pollLoop getOp op waited).2 ≤ max_wait := by
  induction op, waited using pollLoop.induct getOp with
  | case1 op waited hcond e he =>
    intro h2 hle
    rw [pollLoop, if_pos hcond, he]
    obtain ⟨-, hw⟩ := hcond
    simp only [max_wait, poll_seconds] at hw h2 ⊢
    omega
  | case2 op waited hcond op' he ih =>
    intro h2 hle
    rw [pollLoop, if_pos hcond, he]
    obtain ⟨-, hw⟩ := hcond
    simp only [max_wait] at hw
    exact ih (by simp only [poll_seconds]; omega)
      (by simp only [poll_seconds, max_wait]; omega)
  | case3 op waited hcond =>
    intro h2 hle
    rw [pollLoop, if_neg hcond]
    exact ⟨h2, hle⟩

/-- C5: the import wait polls at the fixed interval `poll_seconds = 2`, so
the total wait is a multiple of 2 and is at most `max_wait = 300`
time-units even if the operation never reports done (the loop is a total
function, so it terminates); a transport failure on a status check ends
polling silently, returning normally instead of propagating an error; and
in the surrounding handler that silent termination falls through to the
optimistic-ready path (timeout warning, readiness flag raised). -/
theorem C5_poll_budget (getOp : Nat → Except Unit Operation) (op : Operation)
    (env : UploadEnv) (api fname storeName : String) (s : SessionState) :
    ((pollLoop getOp op 0).2 % poll_seconds = 0 ∧ (pollLoop getOp op 0).2 ≤ max_wait)
    ∧ (op.done = false → getOp poll_seconds = .error () →
        pollLoop getOp op 0 = (op, poll_seconds))
    ∧ (api ≠ "" → env.genaiAvailable = true → env.createClient = .ok () →
        env.createStore = .ok storeName → env.writeTmp = .ok () →
        env.upload = .ok op → op.done = false → (∀ w, env.getOp w = .error ()) →
        (uploadHandler env api (some fname) s).2 = .timeoutWarning
        ∧ (uploadHandler env api (some fname) s).1.file_search_ready = true) := by
  have hbreak : ∀ op2 : Operation, op2.done = false → getOp poll_seconds = .error () →
      pollLoop getOp op2 0 = (op2, poll_seconds) := by
    intro op2 hd he
    rw [pollLoop, if_pos ⟨hd, by simp [max_wait]⟩]
    simp only [Nat.zero_add, he]
  refine ⟨?_, hbreak op, ?_⟩
  · exact pollLoop_waited_spec getOp op 0 rfl (by simp [max_wait])
  · intro hapi hga hcc hcs hwt hup hd hge
    have hpoll : pollLoop env.getOp op 0 = (op, poll_seconds) := by
      rw [pollLoop, if_pos ⟨hd, by simp [max_wait]⟩]
      simp only [Nat.zero_add, hge]
    simp only [uploadHandler, if_neg hapi, hga, hcc, hcs, hwt, hup, hpoll, hd]
    simp [hd]

/-- Witness for C5: the upload environment whose status checks always
raise; the poll loop returns after one 2-unit sleep and the handler takes
the optimistic-ready path. -/
theorem C5_witness :
    ((pollLoop (fun _ => Except.error ()) ⟨false⟩ 0).2 % poll_seconds = 0
      ∧ (pollLoop (fun _ => Except.error ()) ⟨false⟩ 0).2 ≤ max_wait)
    ∧ pollLoop (fun _ => Except.error ()) ⟨false⟩ 0 = (⟨false⟩, poll_seconds)
    ∧ ((uploadHandler ⟨true, .ok (), .ok "store1", .ok (), .ok ⟨false⟩, fun _ => .error ()⟩
          "key" (some "doc.pdf") initState).2 = .timeoutWarning
        ∧ (uploadHandler ⟨true, .ok (), .ok "store1", .ok (), .ok ⟨false⟩, fun _ => .error ()⟩
          "key" (some "doc.pdf") initState).1.file_search_ready = true) :=
  have h := C5_poll_budget (fun _ => Except.error ()) ⟨false⟩
    ⟨true, .ok (), .ok "store1", .ok (), .ok ⟨false⟩, fun _ => .error ()⟩
    "key" "doc.pdf" "store1" initState
  ⟨h.1, h.2.1 rfl rfl, h.2.2 (by decide) rfl rfl rfl rfl rfl rfl (fun w => rfl)⟩

/-- C2: when any external call of the ingestion path raises (client
construction, store creation, the temp-file write, or the upload/import
request), the handler surfaces an error message to the user and corrupts
no session state: starting from a not-yet-ready session, the readiness
flag is still false afterwards and the conversation history is unmutated. -/
theorem C2_ingestion_failure (env : UploadEnv) (api fname : String) (s : SessionState)
    (hapi : api ≠ "") (hlib : env.genaiAvailable = true)
    (hready : s.file_search_ready = false)
    (hfail : (∃ e, env.createClient = .error e) ∨ (∃ e, env.createStore = .error e)
      ∨ (∃ e, env.writeTmp = .error e) ∨ (∃ e, env.upload = .error e)) :
    (uploadHandler env api (some fname) s).1.file_search_ready = false
    ∧ (uploadHandler env api (some fname) s).1.conversation_history = s.conversation_history
    ∧ ∃ e, (uploadHandler env api (some fname) s).2 = .errClientCreate e
        ∨ (uploadHandler env api (some fname) s).2 = .exceptionShown e := by
  rcases hcc : env.createClient with e | u
  · simp [uploadHandler, hapi, hlib, hcc, hready]
  rcases hcs : env.createStore with e | sn
  · simp [uploadHandler, hapi, hlib, hcc, hcs, hready]
  rcases hwt : env.writeTmp with e | u2
  · simp [uploadHandler, hapi, hlib, hcc, hcs, hwt, hready]
  rcases hup : env.upload with e | op
  · simp [uploadHandler, hapi, hlib, hcc, hcs, hwt, hup, hready]
  · rcases hfail with ⟨e, h⟩ | ⟨e, h⟩ | ⟨e, h⟩ | ⟨e, h⟩ <;> simp_all

/-- Witness for C2: a store-creation failure on a fresh session leaves the
readiness flag false, the history empty, and shows the exception. -/
theorem C2_witness :
    (uploadHandler ⟨true, .ok (), .error "boom", .ok (), .ok ⟨true⟩, fun _ => .ok ⟨true⟩⟩
        "key" (some "doc.pdf") initState).1.file_search_ready = false
    ∧ (uploadHandler ⟨true, .ok (), .error "boom", .ok (), .ok ⟨true⟩, fun _ => .ok ⟨true⟩⟩
        "key" (some "doc.pdf") initState).1.conversation_history
      = initState.conversation_history
    ∧ ∃ e, (uploadHandler ⟨true, .ok (), .error "boom", .ok (), .ok ⟨true⟩, fun _ => .ok ⟨true⟩⟩
          "key" (some "doc.pdf") initState).2 = .errClientCreate e
        ∨ (uploadHandler ⟨true, .ok (), .error "boom", .ok (), .ok ⟨true⟩, fun _ => .ok ⟨true⟩⟩
          "key" (some "doc.pdf") initState).2 = .exceptionShown e :=
  C2_ingestion_failure ⟨true, .ok (), .error "boom", .ok (), .ok ⟨true⟩, fun _ => .ok ⟨true⟩⟩
    "key" "doc.pdf" initState (by decide) rfl rfl (Or.inr (Or.inl ⟨"boom", rfl⟩))

/-- Full characterization of the upload handler's effect on the history and
readiness flag: the history is cleared exactly on the success message, the
timeout warning raises readiness but keeps the history, and every other
outcome leaves the history untouched. -/
theorem uploadHandler_characterization (env : UploadEnv) (api : String)
    (f : Option String) (s : SessionState) :
    ((uploadHandler env api f s).2 = .successReady →
      (uploadHandler env api f s).1.conversation_history = []
      ∧ (uploadHandler env api f s).1.file_search_ready = true)
    ∧ ((uploadHandler env api f s).2 = .timeoutWarning →
      (uploadHandler env api f s).1.file_search_ready = true
      ∧ (uploadHandler env api f s).1.conversation_history = s.conversation_history)
    ∧ ((uploadHandler env api f s).2 ≠ .successReady →
      (uploadHandler env api f s).1.conversation_history = s.conversation_history) := by
  by_cases hapi : api = ""
  · simp [uploadHandler, hapi]
  cases f with
  | none => simp [uploadHandler, hapi]
  | some fname =>
    by_cases hga : env.genaiAvailable = false
    · simp [uploadHandler, hapi, hga]
    rcases hcc : env.createClient with e | u
    · simp [uploadHandler, hapi, hga, hcc]
    rcases hcs : env.createStore with e | sn
    · simp [uploadHandler, hapi, hga, hcc, hcs]
    rcases hwt : env.writeTmp with e | u2
    · simp [uploadHandler, hapi, hga, hcc, hcs, hwt]
    rcases hup : env.upload with e | op
    · simp [uploadHandler, hapi, hga, hcc, hcs, hwt, hup]
    by_cases hd : (pollLoop env.getOp op 0).1.done
    · simp [uploadHandler, hapi, hga, hcc, hcs, hwt, hup, hd]
    · simp [uploadHandler, hapi, hga, hcc, hcs, hwt, hup, hd]

/-- C3: the conversation history is empty at session creation and is
cleared exactly when the upload handler reports a successful import
(operation observed done within budget), in which case the readiness flag
is simultaneously raised; on the timeout warning the session is still
marked ready but the history is kept; and a failed answer call (raised
`generate_content`) never clears the history. -/
theorem C3_history_clear (env : UploadEnv) (api : String) (f : Option String)
    (s : SessionState) (api2 q e : String) :
    initState.conversation_history = []
    ∧ ((uploadHandler env api f s).2 = .successReady →
        (uploadHandler env api f s).1.conversation_history = []
        ∧ (uploadHandler env api f s).1.file_search_ready = true)
    ∧ ((uploadHandler env api f s).2 = .timeoutWarning →
        (uploadHandler env api f s).1.file_search_ready = true
        ∧ (uploadHandler env api f s).1.conversation_history = s.conversation_history)
    ∧ ((uploadHandler env api f s).2 ≠ .successReady →
        (uploadHandler env api f s).1.conversation_history = s.conversation_history)
    ∧ (answerHandler (.error e) api2 q s).1.conversation_history = s.conversation_history := by
  obtain ⟨h1, h2, h3⟩ := uploadHandler_characterization env api f s
  refine ⟨rfl, h1, h2, h3, ?_⟩
  simp only [answerHandler]
  split_ifs <;> rfl

/-- Witness for C3: a completed import on a session with one prior
exchange clears the history and raises readiness, and a raised inference
call keeps the history. -/
theorem C3_witness :
    ((uploadHandler ⟨true, .ok (), .ok "st1", .ok (), .ok ⟨true⟩, fun _ => .ok ⟨true⟩⟩
        "key" (some "doc.pdf") ⟨some (), some "st0", some "old", true, [⟨"pq", "pa"⟩]⟩).1.conversation_history = []
      ∧ (uploadHandler ⟨true, .ok (), .ok "st1", .ok (), .ok ⟨true⟩, fun _ => .ok ⟨true⟩⟩
        "key" (some "doc.pdf") ⟨some (), some "st0", some "old", true, [⟨"pq", "pa"⟩]⟩).1.file_search_ready = true)
    ∧ (answerHandler (.error "boom") "key" "why"
        ⟨some (), some "st0", some "old", true, [⟨"pq", "pa"⟩]⟩).1.conversation_history
      = (⟨some (), some "st0", some "old", true, [⟨"pq", "pa"⟩]⟩ : SessionState).conversation_history :=
  have h := C3_history_clear ⟨true, .ok (), .ok "st1", .ok (), .ok ⟨true⟩, fun _ => .ok ⟨true⟩⟩
    "key" (some "doc.pdf") ⟨some (), some "st0", some "old", true, [⟨"pq", "pa"⟩]⟩ "key" "why" "boom"
  ⟨h.2.1 (by simp [uploadHandler, pollLoop, max_wait]), h.2.2.2.2⟩

/-- C4: with the preconditions satisfied, a successful inference whose
response carries the primary text payload appends exactly the pair
(question, answer) to the history and displays the answer; a raised
inference call leaves the history unchanged, so a retried question builds
its prompt from the same prior context; and in every case the history is
either unchanged or extended by exactly the displayed exchange. -/
theorem C4_append_on_success (genResult : Except String GenResponse)
    (api question : String) (s : SessionState) (t e : String) (r : GenResponse) :
    (api ≠ "" → s.client ≠ none → s.file_search_store_name ≠ none →
      pyStrip question ≠ "" → genResult = .ok r → r.text = some t →
      answerHandler genResult api question s =
        ({ s with conversation_history := s.conversation_history ++ [⟨question, t⟩] },
          .answerShown t))
    ∧ (genResult = .error e →
        (answerHandler genResult api question s).1.conversation_history
          = s.conversation_history
        ∧ ∀ q2, build_prompt (answerHandler genResult api question s).1.conversation_history q2
            = build_prompt s.conversation_history q2)
    ∧ ((answerHandler genResult api question s).1.conversation_history = s.conversation_history
        ∨ ∃ t2, (answerHandler genResult api question s).2 = .answerShown t2
          ∧ (answerHandler genResult api question s).1.conversation_history
            = s.conversation_history ++ [⟨question, t2⟩]) := by
  refine ⟨?_, ?_, ?_⟩
  · intro hapi hc hst hq hg ht
    subst hg
    simp [answerHandler, hapi, hc, hst, hq, ht]
  · intro hg
    subst hg
    have hh : (answerHandler (.error e) api question s).1.conversation_history
        = s.conversation_history := by
      simp only [answerHandler]
      split_ifs <;> rfl
    exact ⟨hh, fun q2 => by rw [hh]⟩
  · by_cases hapi : api = "" ∨ s.client = none
    · left; simp [answerHandler, hapi]
    by_cases hst : s.file_search_store_name = none
    · left; simp [answerHandler, hapi, hst]
    by_cases hq : pyStrip question = ""
    · left; simp [answerHandler, hapi, hst, hq]
    cases genResult with
    | error e2 => left; simp [answerHandler, hapi, hst, hq]
    | ok r2 =>
      rcases htx : r2.text with _ | t2
      · rcases hout : r2.output with _ | t2
        · left; simp [answerHandler, hapi, hst, hq, htx, hout]
        · right
          exact ⟨t2, by simp [answerHandler, hapi, hst, hq, htx, hout],
            by simp [answerHandler, hapi, hst, hq, htx, hout]⟩
      · right
        exact ⟨t2, by simp [answerHandler, hapi, hst, hq, htx],
          by simp [answerHandler, hapi, hst, hq, htx]⟩

/-- Witness for C4: a successful answer appends the new exchange after the
prior one; a raised call leaves the one-exchange history as it was. -/
theorem C4_witness :
    answerHandler (.ok ⟨some "ans", none⟩) "key" "why"
        ⟨some (), some "st1", some "d", true, [⟨"pq", "pa"⟩]⟩ =
      ({ (⟨some (), some "st1", some "d", true, [⟨"pq", "pa"⟩]⟩ : SessionState) with
          conversation_history :=
            (⟨some (), some "st1", some "d", true, [⟨"pq", "pa"⟩]⟩ : SessionState).conversation_history
              ++ [⟨"why", "ans"⟩] }, .answerShown "ans")
    ∧ (answerHandler (.error "boom") "key" "why"
        ⟨some (), some "st1", some "d", true, [⟨"pq", "pa"⟩]⟩).1.conversation_history
      = (⟨some (), some "st1", some "d", true, [⟨"pq", "pa"⟩]⟩ : SessionState).conversation_history :=
  ⟨(C4_append_on_success (.ok ⟨some "ans", none⟩) "key" "why"
      ⟨some (), some "st1", some "d", true, [⟨"pq", "pa"⟩]⟩ "ans" "boom" ⟨some "ans", none⟩).1
      (by decide) (by simp) (by simp) (by decide) rfl rfl,
    ((C4_append_on_success (.error "boom") "key" "why"
      ⟨some (), some "st1", some "d", true, [⟨"pq", "pa"⟩]⟩ "ans" "boom" ⟨some "ans", none⟩).2.1
      rfl).1⟩

/-- C10: with the preconditions satisfied, a response exposing neither the
`text` nor the `output` payload makes the handler display the raw response
and append nothing (the history is unchanged), while a response with
`text` absent but `output` present records the exchange with the `output`
value as the answer. -/
theorem C10_extraction_fallback (api question : String) (s : SessionState)
    (r : GenResponse) (t : String)
    (hapi : api ≠ "") (hc : s.client ≠ none) (hst : s.file_search_store_name ≠ none)
    (hq : pyStrip question ≠ "") :
    (r.text = none → r.output = none →
      answerHandler (.ok r) api question s = (s, .rawResponseShown r))
    ∧ (r.text = none → r.output = some t →
      answerHandler (.ok r) api question s =
        ({ s with conversation_history := s.conversation_history ++ [⟨question, t⟩] },
          .answerShown t)) := by
  constructor
  · intro htx hout
    simp [answerHandler, hapi, hc, hst, hq, htx, hout]
  · intro htx hout
    simp [answerHandler, hapi, hc, hst, hq, htx, hout]

/-- Witness for C10: a payload-less response leaves the session untouched
and dumps the raw response; an output-only response records its value. -/
theorem C10_witness :
    answerHandler (.ok ⟨none, none⟩) "key" "why"
        ⟨some (), some "st1", some "d", true, [⟨"pq", "pa"⟩]⟩ =
      (⟨some (), some "st1", some "d", true, [⟨"pq", "pa"⟩]⟩, .rawResponseShown ⟨none, none⟩)
    ∧ answerHandler (.ok ⟨none, some "out"⟩) "key" "why"
        ⟨some (), some "st1", some "d", true, [⟨"pq", "pa"⟩]⟩ =
      ({ (⟨some (), some "st1", some "d", true, [⟨"pq", "pa"⟩]⟩ : SessionState) with
          conversation_history :=
            (⟨some (), some "st1", some "d", true, [⟨"pq", "pa"⟩]⟩ : SessionState).conversation_history
              ++ [⟨"why", "out"⟩] }, .answerShown "out") :=
  ⟨(C10_extraction_fallback "key" "why" ⟨some (), some "st1", some "d", true, [⟨"pq", "pa"⟩]⟩
      ⟨none, none⟩ "out" (by decide) (by simp) (by simp) (by decide)).1 rfl rfl,
    (C10_extraction_fallback "key" "why" ⟨some (), some "st1", some "d", true, [⟨"pq", "pa"⟩]⟩
      ⟨none, some "out"⟩ "out" (by decide) (by simp) (by simp) (by decide)).2 rfl rfl⟩
